import Mathlib

/-!
Shallow embedding of the cross-sell/upsell recommendation pipeline of
`src/main.py` (the five LangGraph agent nodes, the state record they
thread, and the routing of the orchestrator), together with the parts of the
spec that are settled against it.

Modelling conventions:
* The Postgres `customer_purchases` table is a list of `Row`; each SQL
  query is a pure function of its parameters.  A query that may raise is
  modelled by a fetch function returning `Except String _`, the `.error`
  case standing for a raised exception caught by the agent.
* The generative service is a black box: each agent that calls it takes
  the parsed response as an `Except String _` parameter, the `.error`
  case covering both transport failures and payloads rejected inside the agent `try`
  block.  The `JsonOutputParser(pydantic_object=...)` in the code
  only uses the pydantic model for format instructions and performs no
  validation of the parsed JSON, so a successfully parsed scoring
  payload may carry any integer score.
* The Python `list(set(...))` conversion enumerates a hash set in an unspecified,
  hash-seed-dependent order.  It is modelled by an arbitrary enumeration
  function `e` constrained by `IsSetEnum` (duplicate-free, same
  membership); theorems quantify over every such `e`.
* `TypedDict` keys that are absent until written are modelled by empty
  defaults; the pipeline writes every field before a later stage reads
  it.
-/

namespace CrossSell

/-- A row of the `customer_purchases` table (the columns `main.py` reads). -/
structure Row where
  customerId : String
  customerName : String
  industry : String
  annualRevenue : Int
  numberOfEmployees : Nat
  location : String
  priorityRating : String
  accountType : String
  product : String
  quantity : Nat
  unitPrice : Int
  totalPrice : Int
  purchaseDate : String
deriving DecidableEq

/-- The `customer_profile` dict built by `customer_context_agent`. -/
structure Profile where
  customer_name : String
  industry : String
  annual_revenue_usd : Int
  number_of_employees : Nat
  location : String
  customer_priority_rating : String
  account_type : String
deriving DecidableEq

/-- One entry of `customer_purchase_history` (a row projected to the
purchase-relevant columns). -/
structure PurchaseRecord where
  product : String
  quantity : Nat
  unitPrice : Int
  totalPrice : Int
  purchaseDate : String
deriving DecidableEq

/-- A parsed entry of the `suggestions` list of the affinity response. -/
structure Suggestion where
  product : String
  rationale : String
deriving DecidableEq

/-- A parsed entry of the `opportunities` list of the scoring response.  The
pydantic model in the code declares `score` with bounds 1..10, but the
parser never applies that validation, so the parsed score is an
arbitrary integer. -/
structure Opp where
  product : String
  type : String
  score : Int
  rationale : String
deriving DecidableEq

/-- One entry of `recommendations_structured`. -/
structure Recommendation where
  product : String
  type : String
  reason : String
deriving DecidableEq

/-- The `AgentState` TypedDict threaded through the LangGraph nodes. -/
structure AgentState where
  customer_id : String
  customer_profile : Profile
  customer_purchase_history : List PurchaseRecord
  frequent_products : List String
  missing_opportunities_products : List String
  related_product_suggestions : List Suggestion
  scored_opportunities : List Opp
  research_report : String
  recommendations_structured : List Recommendation
  error : Option String
deriving DecidableEq

/-- Python truthiness of `state.get("error")`: `None` and the empty
string are falsy, every other string is truthy. -/
def errTruthy : Option String → Bool
  | none => false
  | some e => e != ""

/-- Default profile standing for a not-yet-written `customer_profile` key. -/
def emptyProfile : Profile :=
  { customer_name := "", industry := "", annual_revenue_usd := 0,
    number_of_employees := 0, location := "",
    customer_priority_rating := "", account_type := "" }

/-- The pipeline input `{"customer_id": customer_id}`: every other key
is absent, modelled by empty defaults. -/
def initState (cid : String) : AgentState :=
  { customer_id := cid, customer_profile := emptyProfile,
    customer_purchase_history := [], frequent_products := [],
    missing_opportunities_products := [], related_product_suggestions := [],
    scored_opportunities := [], research_report := "",
    recommendations_structured := [], error := none }

/-- Profile fields taken from one row (`customer_context_agent`, first row). -/
def profileOfRow (r : Row) : Profile :=
  { customer_name := r.customerName, industry := r.industry,
    annual_revenue_usd := r.annualRevenue,
    number_of_employees := r.numberOfEmployees, location := r.location,
    customer_priority_rating := r.priorityRating,
    account_type := r.accountType }

/-- Projection of a row to the purchase-relevant columns. -/
def purchaseOfRow (r : Row) : PurchaseRecord :=
  { product := r.product, quantity := r.quantity, unitPrice := r.unitPrice,
    totalPrice := r.totalPrice, purchaseDate := r.purchaseDate }

/-- `SELECT * FROM customer_purchases WHERE "Customer ID" = %s`. -/
def queryCustomer (db : List Row) (cid : String) : List Row :=
  db.filter (fun r => r.customerId == cid)

/-- `SELECT DISTINCT "Product" FROM customer_purchases WHERE "Industry" = %s
AND "Customer ID" != %s`, as the multiset of matching products; the SQL
DISTINCT is absorbed by the Python `set(...)` conversion applied to the
result. -/
def queryPeers (db : List Row) (ind cid : String) : List String :=
  (db.filter (fun r => r.industry == ind && !(r.customerId == cid))).map
    (fun r => r.product)

/-- First-seen deduplication (auxiliary, with an accumulator of already
seen elements). -/
def dfsAux (seen : List String) : List String → List String
  | [] => []
  | x :: xs =>
    if seen.contains x then dfsAux seen xs
    else x :: dfsAux (x :: seen) xs

/-- The distinct elements of a list in first-seen order: one concrete
enumeration a Python `list(set(...))` may produce. -/
def distinctFirstSeen (l : List String) : List String := dfsAux [] l

/-- A function is a valid model of the Python `list(set(...))` conversion when its
output is duplicate-free and has the same members as its input; the
order is otherwise unconstrained (CPython enumerates hash sets in a
hash-seed-dependent order). -/
def IsSetEnum (e : List String → List String) : Prop :=
  ∀ l : List String, (e l).Nodup ∧ ∀ a : String, a ∈ e l ↔ a ∈ l

/-- A valid set enumeration that reverses first-seen order. -/
def revEnum (l : List String) : List String := (distinctFirstSeen l).reverse

/-- `customer_context_agent`: loads profile and purchase history for
`state.customer_id`; `fetch` is the parameterized customer query. -/
def customer_context_agent (fetch : String → Except String (List Row))
    (s : AgentState) : AgentState :=
  match fetch s.customer_id with
  | .error e =>
      { s with error := some ("Database error fetching customer data: " ++ e) }
  | .ok rows =>
    match rows with
    | [] =>
        let msg := "Customer ID " ++ s.customer_id ++ " not found."
        { s with error := some msg }
    | first :: rest =>
        { s with
          customer_profile := profileOfRow first,
          customer_purchase_history := (first :: rest).map purchaseOfRow,
          error := none }

/-- `purchase_pattern_analysis_agent`: `e` models `list(set(...))`,
`fetchPeers` the industry-peer query keyed by (industry, customer id). -/
def purchase_pattern_analysis_agent (e : List String → List String)
    (fetchPeers : String → String → Except String (List String))
    (s : AgentState) : AgentState :=
  if errTruthy s.error then s
  else
    let purchased_products := s.customer_purchase_history.map
      (fun p => p.product)
    let frequent_products := e purchased_products
    match fetchPeers s.customer_profile.industry s.customer_id with
    | .error err =>
        let msg := "Database error fetching industry peer data: " ++ err
        { s with error := some msg }
    | .ok peers =>
        let missing := e (peers.filter (fun p => !(frequent_products.contains p)))
        { s with
          frequent_products := frequent_products,
          missing_opportunities_products := missing }

/-- `product_affinity_agent`: `svc` is the parsed generative response;
`.error` covers service failures and payloads the `try` block rejects
(both yield an empty suggestion list with no pipeline error). -/
def product_affinity_agent (svc : Except String (List Suggestion))
    (s : AgentState) : AgentState :=
  if errTruthy s.error then s
  else if s.frequent_products.isEmpty then
    { s with related_product_suggestions := [] }
  else
    match svc with
    | .error _ => { s with related_product_suggestions := [] }
    | .ok raw =>
        let kept := raw.filter (fun sug => !(s.frequent_products.contains sug.product))
        { s with related_product_suggestions := kept }

/-- Stable descending insertion by score: insert `o` before the first
entry of strictly smaller score. -/
def insertByScore (o : Opp) : List Opp → List Opp
  | [] => [o]
  | x :: xs => if o.score ≥ x.score then o :: x :: xs else x :: insertByScore o xs

/-- The stable Python `sorted(..., key=lambda x: x.get("score", 0),
reverse=True)`: non-increasing by score, ties keep input order. -/
def sortByScoreDesc : List Opp → List Opp
  | [] => []
  | x :: xs => insertByScore x (sortByScoreDesc xs)

/-- `opportunity_scoring_agent`: filters out already-owned products,
sorts by score descending; a failed request becomes a pipeline error. -/
def opportunity_scoring_agent (svc : Except String (List Opp))
    (s : AgentState) : AgentState :=
  if errTruthy s.error then s
  else
    match svc with
    | .error e =>
        { s with error := some ("Error in Opportunity Scoring Agent: " ++ e) }
    | .ok raw =>
        let kept := raw.filter (fun o => !(s.frequent_products.contains o.product))
        { s with scored_opportunities := sortByScoreDesc kept }

/-- Projection of a scored opportunity to a structured recommendation. -/
def projRec (o : Opp) : Recommendation :=
  { product := o.product, type := o.type, reason := o.rationale }

/-- `recommendation_report_agent`: builds `recommendations_structured`
from the first five scored opportunities and asks the service for the
narrative report (`svc` is its response); a failed request becomes a
pipeline error and leaves report and recommendations unwritten. -/
def recommendation_report_agent (svc : Except String String)
    (s : AgentState) : AgentState :=
  if errTruthy s.error then s
  else
    let top := (s.scored_opportunities.take 5).map projRec
    match svc with
    | .error e =>
        let msg := "Error in Recommendation Report Agent: " ++ e
        { s with error := some msg }
    | .ok report =>
        { s with research_report := report,
                 recommendations_structured := top }

/-- Does `needle` occur at the start of `hay`? (chars of Python `str`). -/
def startsWithChars : List Char → List Char → Bool
  | [], _ => true
  | _ :: _, [] => false
  | a :: as, b :: bs => a == b && startsWithChars as bs

/-- The Python string test `needle in hay`, over char lists. -/
def containsSeq (pat : List Char) : List Char → Bool
  | [] => startsWithChars pat []
  | c :: rest => startsWithChars pat (c :: rest) || containsSeq pat rest

/-- The marker checked by the conditional edge of the orchestrator. -/
def scoringTag : String := "Error in Opportunity Scoring Agent"

/-- The conditional edge after `opportunity_scoring_agent`: route to END
(`true`) when the error is truthy and contains the scoring-agent marker,
else continue to the report node. -/
def scoringRouteEnds (s : AgentState) : Bool :=
  errTruthy s.error && containsSeq scoringTag.data ((s.error.getD "").data)

/-- The compiled workflow run on `{"customer_id": cid}`: context loader,
then (unless its error routes to END) pattern analysis, affinity,
scoring, and (unless the scoring conditional routes to END) the report
node.  The stray unconditional edge scoring → report in the code makes
no observable difference: it can only invoke the report node on a state
whose truthy error makes that node a pass-through. -/
def run_pipeline (fetchCustomer : String → Except String (List Row))
    (e : List String → List String)
    (fetchPeers : String → String → Except String (List String))
    (affSvc : Except String (List Suggestion))
    (scoreSvc : Except String (List Opp))
    (repSvc : Except String String) (cid : String) : AgentState :=
  let s1 := customer_context_agent fetchCustomer (initState cid)
  if errTruthy s1.error then s1
  else
    let s2 := purchase_pattern_analysis_agent e fetchPeers s1
    let s3 := product_affinity_agent affSvc s2
    let s4 := opportunity_scoring_agent scoreSvc s3
    if scoringRouteEnds s4 then s4
    else recommendation_report_agent repSvc s4

/-- Modelled from the spec: the deterministic (co-occurrence) affinity
strategy of §4.4 is not present in `src/` (only the generative strategy
is implemented); its counting phase is modelled from the words of the spec.
The distinct customers of the full (customer, product) purchase listing,
in first-seen order. -/
def customersOf (db : List (String × String)) : List String :=
  distinctFirstSeen (db.map (fun r => r.fst))

/-- Modelled from the spec: the distinct products purchased by one
customer, from the full (customer, product) listing. -/
def productsOf (db : List (String × String)) (c : String) : List String :=
  distinctFirstSeen ((db.filter (fun r => r.fst == c)).map (fun r => r.snd))

/-- Modelled from the spec: "for every pair of distinct products p1≠p2
purchased by the same customer, increment count[p1][p2]" — the listing
of all increment events, one `(p1, p2)` entry per ordered pair of
distinct products per customer. -/
def coIncrements (db : List (String × String)) : List (String × String) :=
  (customersOf db).flatMap (fun c =>
    (productsOf db c).flatMap (fun p1 =>
      (productsOf db c).filterMap (fun p2 =>
        if p1 = p2 then none else some (p1, p2))))

/-- Modelled from the spec: the co-occurrence count `count[p1][p2]` of
the deterministic affinity strategy — the number of increments recorded
for the ordered pair `(p1, p2)`. -/
def coCount (db : List (String × String)) (p1 p2 : String) : Nat :=
  (coIncrements db).count (p1, p2)

/-- Concrete fixture: a purchase row of customer C1 (Construction). -/
def rowDrills : Row :=
  { customerId := "C1", customerName := "Acme Construction",
    industry := "Construction", annualRevenue := 1000000,
    numberOfEmployees := 50, location := "Austin",
    priorityRating := "High", accountType := "Gold",
    product := "Drills", quantity := 3, unitPrice := 120,
    totalPrice := 360, purchaseDate := "2024-01-05" }

/-- Concrete fixture: a second purchase row of customer C1. -/
def rowBits : Row :=
  { rowDrills with
    product := "Drill Bits", quantity := 10, unitPrice := 8,
    totalPrice := 80, purchaseDate := "2024-02-01" }

/-- Concrete fixture: a purchase row of a same-industry peer C2. -/
def rowPeerGen : Row :=
  { rowDrills with
    customerId := "C2", customerName := "Best Build",
    product := "Generators", quantity := 1, unitPrice := 900,
    totalPrice := 900, purchaseDate := "2024-03-01" }

/-- Concrete fixture: a state carrying the empty-string error (non-null
but falsy in Python) and a stale `frequent_products` value. -/
def stateEmptyErr : AgentState :=
  { initState "CX" with error := some "", frequent_products := ["Drills"] }

/-- Concrete fixture: a loaded state for C1 with two purchases and no
error, as left by the context stage. -/
def stateLoaded : AgentState :=
  { initState "C1" with
    customer_profile := profileOfRow rowDrills,
    customer_purchase_history := [rowDrills, rowBits].map purchaseOfRow,
    frequent_products := ["Drills", "Drill Bits"] }

/-- Concrete fixture: a scored opportunity for Generators, score 9. -/
def oppGenNine : Opp :=
  { product := "Generators", type := "Cross-Sell", score := 9,
    rationale := "peers buy them" }

/-- Concrete fixture: a second scored opportunity for the same product. -/
def oppGenEight : Opp :=
  { product := "Generators", type := "Upsell", score := 8,
    rationale := "capacity upgrade" }

/-- Concrete fixture: a scored-opportunity list whose first two entries
share one product. -/
def stateDupScored : AgentState :=
  { initState "C1" with
    scored_opportunities := [oppGenNine, oppGenEight] }

/-- Concrete fixture: a parsed scoring entry whose score violates the
declared 1..10 bounds. -/
def oppOutOfRange : Opp :=
  { product := "Advanced Analytics", type := "Cross-Sell", score := 42,
    rationale := "strong fit" }

/-- Concrete fixture: a parsed scoring entry for a product the customer
of `stateLoaded` already owns. -/
def oppOwnedDrills : Opp :=
  { product := "Drills", type := "Upsell", score := 7,
    rationale := "already owned" }

/-- `contains` on string lists agrees with membership. -/
theorem contains_iff_mem (l : List String) (a : String) :
    l.contains a = true ↔ a ∈ l := by
  simp [List.contains]

/-- Unfolding equation: deduplication of the empty list. -/
theorem dfsAux_nil (seen : List String) : dfsAux seen [] = [] := rfl

/-- Unfolding equation: deduplication of a cons. -/
theorem dfsAux_cons (seen : List String) (x : String) (xs : List String) :
    dfsAux seen (x :: xs) =
      if seen.contains x then dfsAux seen xs
      else x :: dfsAux (x :: seen) xs := rfl

/-- Membership in the first-seen deduplication with accumulator. -/
theorem mem_dfsAux (l : List String) :
    ∀ (seen : List String) (a : String),
      a ∈ dfsAux seen l ↔ a ∈ l ∧ a ∉ seen := by
  induction l with
  | nil => intro seen a; simp [dfsAux_nil]
  | cons x xs ih =>
    intro seen a
    rw [dfsAux_cons]
    by_cases hx : seen.contains x = true
    · have hxs : x ∈ seen := (contains_iff_mem seen x).mp hx
      rw [if_pos hx]
      by_cases hax : a = x
      · subst hax
        simp [ih, hxs]
      · simp [ih, List.mem_cons, hax]
    · have hxs : x ∉ seen := fun hm => hx ((contains_iff_mem seen x).mpr hm)
      rw [if_neg hx]
      by_cases hax : a = x
      · subst hax
        simp [ih, List.mem_cons, hxs]
      · simp [ih, List.mem_cons, hax]

/-- The first-seen deduplication is duplicate-free. -/
theorem nodup_dfsAux (l : List String) :
    ∀ seen : List String, (dfsAux seen l).Nodup := by
  induction l with
  | nil => intro seen; simp [dfsAux_nil]
  | cons x xs ih =>
    intro seen
    rw [dfsAux_cons]
    by_cases hx : seen.contains x = true
    · rw [if_pos hx]; exact ih seen
    · rw [if_neg hx]
      refine List.nodup_cons.mpr ⟨?_, ih (x :: seen)⟩
      intro hmem
      exact ((mem_dfsAux xs (x :: seen) x).mp hmem).2 (List.mem_cons_self x seen)

/-- `distinctFirstSeen` is a valid model of `list(set(...))`. -/
theorem isSetEnum_distinctFirstSeen : IsSetEnum distinctFirstSeen := by
  intro l
  refine ⟨nodup_dfsAux l [], fun a => ?_⟩
  simpa using mem_dfsAux l [] a

/-- `revEnum` is also a valid model of `list(set(...))`. -/
theorem isSetEnum_revEnum : IsSetEnum revEnum := by
  intro l
  obtain ⟨h1, h2⟩ := isSetEnum_distinctFirstSeen l
  exact ⟨List.nodup_reverse.mpr h1,
    fun a => by rw [revEnum, List.mem_reverse]; exact h2 a⟩

/-- Membership view of valid set enumerations. -/
theorem isSetEnum_mem {e : List String → List String} (he : IsSetEnum e)
    {l : List String} {a : String} : a ∈ e l ↔ a ∈ l :=
  (he l).2 a

/-- Unfolding equation: insertion into the empty list. -/
theorem insertByScore_nil (o : Opp) : insertByScore o [] = [o] := rfl

/-- Unfolding equation: insertion into a cons. -/
theorem insertByScore_cons (o x : Opp) (xs : List Opp) :
    insertByScore o (x :: xs) =
      if o.score ≥ x.score then o :: x :: xs
      else x :: insertByScore o xs := rfl

/-- Insertion by score preserves membership. -/
theorem mem_insertByScore (o a : Opp) (l : List Opp) :
    a ∈ insertByScore o l ↔ a = o ∨ a ∈ l := by
  induction l with
  | nil => simp [insertByScore_nil]
  | cons x xs ih =>
    rw [insertByScore_cons]
    by_cases hc : o.score ≥ x.score
    · rw [if_pos hc]
      exact List.mem_cons
    · rw [if_neg hc]
      simp only [List.mem_cons, ih]
      tauto

/-- Unfolding equation: sorting a cons. -/
theorem sortByScoreDesc_cons (x : Opp) (xs : List Opp) :
    sortByScoreDesc (x :: xs) = insertByScore x (sortByScoreDesc xs) := rfl

/-- The stable descending sort preserves membership. -/
theorem mem_sortByScoreDesc (a : Opp) (l : List Opp) :
    a ∈ sortByScoreDesc l ↔ a ∈ l := by
  induction l with
  | nil => exact Iff.rfl
  | cons x xs ih =>
    rw [sortByScoreDesc_cons, mem_insertByScore, ih]
    exact (List.mem_cons).symm

/-- A needle starts every list it is appended in front of. -/
theorem startsWithChars_self_append (l t : List Char) :
    startsWithChars l (l ++ t) = true := by
  induction l with
  | nil => simp [startsWithChars]
  | cons c cs ih => simp [startsWithChars, ih]

/-- Unfolding equation: occurrence test on a cons. -/
theorem containsSeq_cons (pat : List Char) (c : Char) (rest : List Char) :
    containsSeq pat (c :: rest) =
      (startsWithChars pat (c :: rest) || containsSeq pat rest) := rfl

/-- A needle occurs in any list extending it on the right. -/
theorem containsSeq_self_append (l t : List Char) :
    containsSeq l (l ++ t) = true := by
  cases l with
  | nil =>
    cases t with
    | nil => rfl
    | cons c cs =>
      rw [List.nil_append, containsSeq_cons]
      simp [startsWithChars]
  | cons a as =>
    rw [List.cons_append, containsSeq_cons]
    have h := startsWithChars_self_append (a :: as) t
    rw [List.cons_append] at h
    simp [h]

/-- Appending to a nonempty string never yields the empty string. -/
theorem append_ne_empty (a b : String) (h : a.length ≠ 0) : a ++ b ≠ "" := by
  intro hc
  have hlen := congrArg String.length hc
  rw [String.length_append] at hlen
  have h0 : ("" : String).length = 0 := rfl
  omega

/-- A truthy error message made from a nonempty head and any tail. -/
theorem errTruthy_some_append (a b : String) (h : a.length ≠ 0) :
    errTruthy (some (a ++ b)) = true := by
  simp only [errTruthy, bne_iff_ne, ne_eq]
  exact append_ne_empty a b h

/-- Failing the `contains` test is exactly non-membership. -/
theorem contains_eq_false_iff (l : List String) (a : String) :
    l.contains a = false ↔ a ∉ l := by
  constructor
  · intro h hmem
    have hc := (contains_iff_mem l a).mpr hmem
    rw [h] at hc
    simp at hc
  · intro h
    cases hc : l.contains a
    · rfl
    · exact absurd ((contains_iff_mem l a).mp hc) h

/-- The negated `contains` test is exactly non-membership. -/
theorem not_contains_iff (l : List String) (a : String) :
    (!(l.contains a)) = true ↔ a ∉ l := by
  cases hc : l.contains a
  · simp [(contains_eq_false_iff l a).mp hc]
  · simp [(contains_iff_mem l a).mp hc]

/-- Membership in the peer query: a product of some row of the table
with matching industry and a different customer id. -/
theorem mem_queryPeers (db : List Row) (ind cid p : String) :
    p ∈ queryPeers db ind cid ↔
      ∃ r : Row, r ∈ db ∧ r.industry = ind ∧ r.customerId ≠ cid ∧
        r.product = p := by
  simp only [queryPeers, List.mem_map, List.mem_filter]
  constructor
  · rintro ⟨r, ⟨hdb, hcond⟩, hprod⟩
    rw [Bool.and_eq_true] at hcond
    obtain ⟨hi, hc2⟩ := hcond
    have hne : r.customerId ≠ cid := fun heq => by simp [heq] at hc2
    exact ⟨r, hdb, eq_of_beq hi, hne, hprod⟩
  · rintro ⟨r, hdb, hi, hcid, hprod⟩
    refine ⟨r, ⟨hdb, ?_⟩, hprod⟩
    simp [hi, hcid]

/-- The message written by the scoring stage contains the marker the
conditional edge greps for. -/
theorem scoring_msg_contains (msg : String) :
    containsSeq scoringTag.data
      (("Error in Opportunity Scoring Agent: " ++ msg).data) = true := by
  rw [String.data_append]
  have hsplit : ("Error in Opportunity Scoring Agent: " : String).data =
      scoringTag.data ++ (": " : String).data := by decide
  rw [hsplit, List.append_assoc]
  exact containsSeq_self_append _ _

/-- Field equations of the context stage on a nonempty query result. -/
theorem ccagent_ok_fields (fetch : String → Except String (List Row))
    (s : AgentState) (r : Row) (rest : List Row)
    (hc : fetch s.customer_id = Except.ok (r :: rest)) :
    (customer_context_agent fetch s).customer_profile = profileOfRow r ∧
    (customer_context_agent fetch s).customer_purchase_history =
      (r :: rest).map purchaseOfRow ∧
    (customer_context_agent fetch s).error = none ∧
    (customer_context_agent fetch s).customer_id = s.customer_id ∧
    (customer_context_agent fetch s).scored_opportunities =
      s.scored_opportunities ∧
    (customer_context_agent fetch s).research_report = s.research_report ∧
    (customer_context_agent fetch s).recommendations_structured =
      s.recommendations_structured := by
  refine ⟨?_, ?_, ?_, ?_, ?_, ?_, ?_⟩ <;> simp [customer_context_agent, hc]

/-- Field equations of the context stage on an empty query result. -/
theorem ccagent_empty_fields (fetch : String → Except String (List Row))
    (s : AgentState) (hc : fetch s.customer_id = Except.ok []) :
    (customer_context_agent fetch s).error =
      some ("Customer ID " ++ s.customer_id ++ " not found.") ∧
    (customer_context_agent fetch s).customer_profile = s.customer_profile ∧
    (customer_context_agent fetch s).customer_purchase_history =
      s.customer_purchase_history := by
  refine ⟨?_, ?_, ?_⟩ <;> simp [customer_context_agent, hc]

/-- Field equations of the pattern stage when the peer query succeeds. -/
theorem pattern_ok_fields (e : List String → List String)
    (fP : String → String → Except String (List String)) (s : AgentState)
    (peers : List String) (h : errTruthy s.error = false)
    (hp : fP s.customer_profile.industry s.customer_id = Except.ok peers) :
    (purchase_pattern_analysis_agent e fP s).frequent_products =
      e (s.customer_purchase_history.map (fun p => p.product)) ∧
    (purchase_pattern_analysis_agent e fP s).missing_opportunities_products =
      e (peers.filter (fun p =>
        !((e (s.customer_purchase_history.map (fun q => q.product))).contains p))) ∧
    (purchase_pattern_analysis_agent e fP s).error = s.error ∧
    (purchase_pattern_analysis_agent e fP s).scored_opportunities =
      s.scored_opportunities ∧
    (purchase_pattern_analysis_agent e fP s).research_report =
      s.research_report ∧
    (purchase_pattern_analysis_agent e fP s).recommendations_structured =
      s.recommendations_structured := by
  refine ⟨?_, ?_, ?_, ?_, ?_, ?_⟩ <;>
    simp [purchase_pattern_analysis_agent, h, hp]

/-- The affinity stage only ever writes the suggestion list. -/
theorem affinity_preserves (svc : Except String (List Suggestion))
    (s : AgentState) :
    (product_affinity_agent svc s).error = s.error ∧
    (product_affinity_agent svc s).scored_opportunities =
      s.scored_opportunities ∧
    (product_affinity_agent svc s).research_report = s.research_report ∧
    (product_affinity_agent svc s).recommendations_structured =
      s.recommendations_structured ∧
    (product_affinity_agent svc s).frequent_products = s.frequent_products := by
  unfold product_affinity_agent
  by_cases h : errTruthy s.error = true
  · simp [h]
  · cases svc <;> by_cases hf : s.frequent_products.isEmpty <;> simp [h, hf]

/-- The suggestion list written by the affinity stage on a parsed
response, when frequent products exist. -/
theorem affinity_ok_fields (raw : List Suggestion) (s : AgentState)
    (h : errTruthy s.error = false)
    (hf : s.frequent_products.isEmpty = false) :
    (product_affinity_agent (Except.ok raw) s).related_product_suggestions =
      raw.filter (fun sug => !(s.frequent_products.contains sug.product)) := by
  simp [product_affinity_agent, h, hf]

/-- Field equations of the scoring stage on a failed request. -/
theorem scoring_err_fields (s : AgentState) (msg : String)
    (h : errTruthy s.error = false) :
    (opportunity_scoring_agent (Except.error msg) s).error =
      some ("Error in Opportunity Scoring Agent: " ++ msg) ∧
    (opportunity_scoring_agent (Except.error msg) s).scored_opportunities =
      s.scored_opportunities ∧
    (opportunity_scoring_agent (Except.error msg) s).research_report =
      s.research_report ∧
    (opportunity_scoring_agent (Except.error msg) s).recommendations_structured =
      s.recommendations_structured := by
  refine ⟨?_, ?_, ?_, ?_⟩ <;> simp [opportunity_scoring_agent, h]

/-- The scored list written by the scoring stage on a parsed response. -/
theorem scoring_ok_fields (raw : List Opp) (s : AgentState)
    (h : errTruthy s.error = false) :
    (opportunity_scoring_agent (Except.ok raw) s).scored_opportunities =
      sortByScoreDesc
        (raw.filter (fun o => !(s.frequent_products.contains o.product))) := by
  simp [opportunity_scoring_agent, h]

/-- Field equations of the report stage on a successful generation. -/
theorem report_ok_fields (rep : String) (s : AgentState)
    (h : errTruthy s.error = false) :
    (recommendation_report_agent (Except.ok rep) s).research_report = rep ∧
    (recommendation_report_agent (Except.ok rep) s).recommendations_structured =
      (s.scored_opportunities.take 5).map projRec ∧
    (recommendation_report_agent (Except.ok rep) s).error = s.error := by
  refine ⟨?_, ?_, ?_⟩ <;> simp [recommendation_report_agent, h]

/-- Claim C1, as stated, fails on the code: the four downstream stages
test Python truthiness of the error field, so a state carrying the
empty-string error — non-null but falsy — is processed normally rather
than passed through; here the pattern stage rewrites
`frequent_products`. -/
theorem claim1_counterexample :
    stateEmptyErr.error ≠ none ∧
    purchase_pattern_analysis_agent distinctFirstSeen
        (fun _ _ => Except.ok []) stateEmptyErr ≠ stateEmptyErr := by
  constructor <;> decide

/-- Claim C1 (amended): for every pipeline state whose error field is a
non-empty string, each of the four downstream stages (pattern analysis,
affinity, scoring, report synthesis) returns that state unchanged, so
the error present in the final state equals the first error set. -/
theorem claim1_error_passthrough (s : AgentState)
    (h : errTruthy s.error = true)
    (e : List String → List String)
    (fP : String → String → Except String (List String))
    (affSvc : Except String (List Suggestion))
    (scSvc : Except String (List Opp))
    (repSvc : Except String String) :
    purchase_pattern_analysis_agent e fP s = s ∧
    product_affinity_agent affSvc s = s ∧
    opportunity_scoring_agent scSvc s = s ∧
    recommendation_report_agent repSvc s = s := by
  refine ⟨?_, ?_, ?_, ?_⟩ <;>
    simp [purchase_pattern_analysis_agent, product_affinity_agent,
      opportunity_scoring_agent, recommendation_report_agent, h]

/-- Witness for the amended C1 at a concrete errored state. -/
theorem claim1_error_passthrough_witness :
    purchase_pattern_analysis_agent distinctFirstSeen (fun _ _ => Except.ok [])
        { initState "CX" with error := some "boom" } =
      { initState "CX" with error := some "boom" } :=
  (claim1_error_passthrough { initState "CX" with error := some "boom" }
      (by decide) distinctFirstSeen (fun _ _ => Except.ok [])
      (Except.ok []) (Except.ok []) (Except.ok "")).1

/-- Claim C2, as stated, fails on the code: the report stage takes the
first five scored opportunities with no deduplication by product, so two
scored entries sharing a product yield two recommendations with the same
product. -/
theorem claim2_counterexample :
    ((recommendation_report_agent (Except.ok "report")
        stateDupScored).recommendations_structured.map
      (fun rec => rec.product)) = ["Generators", "Generators"] ∧
    ¬ ((recommendation_report_agent (Except.ok "report")
        stateDupScored).recommendations_structured.map
      (fun rec => rec.product)).Nodup := by
  constructor <;> decide

/-- Claim C2 (amended): the structured recommendation list is exactly
the first five entries of the scored-opportunity list projected to
(product, type, reason) — hence length at most 5 and input order
preserved; the stage performs no deduplication by product. -/
theorem claim2_recommendations_take5 (s : AgentState) (rep : String)
    (h : errTruthy s.error = false) :
    (recommendation_report_agent (Except.ok rep) s).recommendations_structured =
      (s.scored_opportunities.take 5).map projRec ∧
    (recommendation_report_agent (Except.ok rep) s).recommendations_structured.length ≤
      5 := by
  have hr := (report_ok_fields rep s h).2.1
  refine ⟨hr, ?_⟩
  rw [hr, List.length_map, List.length_take]
  exact min_le_left _ _

/-- Witness for the amended C2 at a concrete scored list. -/
theorem claim2_recommendations_take5_witness :
    (recommendation_report_agent (Except.ok "report")
        stateDupScored).recommendations_structured.length ≤ 5 :=
  (claim2_recommendations_take5 stateDupScored "report" (by decide)).2

/-- Claim C3, as stated, fails on the code: `list(set(...))` enumerates
the set in an unspecified hash order, and the reversed enumeration —
also a valid model of that conversion — produces the distinct products
in other than first-seen order on a two-product history. -/
theorem claim3_counterexample :
    IsSetEnum revEnum ∧
    (purchase_pattern_analysis_agent revEnum (fun _ _ => Except.ok [])
        stateLoaded).frequent_products ≠
      distinctFirstSeen
        (stateLoaded.customer_purchase_history.map (fun p => p.product)) :=
  ⟨isSetEnum_revEnum, by decide⟩

/-- Claim C3 (amended): for every loaded purchase history, the
pattern-analysis stage sets `frequent_products` to a duplicate-free list
containing exactly the distinct product names occurring in that history;
the order is the unspecified set-enumeration order, not necessarily
first-seen. -/
theorem claim3_frequent_products_distinct (e : List String → List String)
    (he : IsSetEnum e)
    (fP : String → String → Except String (List String))
    (peers : List String) (s : AgentState)
    (h : errTruthy s.error = false)
    (hp : fP s.customer_profile.industry s.customer_id = Except.ok peers) :
    (purchase_pattern_analysis_agent e fP s).frequent_products.Nodup ∧
    ∀ p : String,
      p ∈ (purchase_pattern_analysis_agent e fP s).frequent_products ↔
        p ∈ s.customer_purchase_history.map (fun q => q.product) := by
  have hf := (pattern_ok_fields e fP s peers h hp).1
  rw [hf]
  exact ⟨(he _).1, fun p => (he _).2 p⟩

/-- Witness for the amended C3 at a concrete two-purchase history. -/
theorem claim3_frequent_products_distinct_witness :
    (purchase_pattern_analysis_agent distinctFirstSeen
        (fun _ _ => Except.ok []) stateLoaded).frequent_products.Nodup :=
  (claim3_frequent_products_distinct distinctFirstSeen
      isSetEnum_distinctFirstSeen (fun _ _ => Except.ok []) [] stateLoaded
      (by decide) rfl).1

/-- Claim C4: `missing_opportunities_products` contains exactly the
products purchased by same-industry rows with a different customer id,
minus the frequent products of the customer; for an empty purchase
history it is exactly the peer-product set. -/
theorem claim4_missing_opportunities (db : List Row)
    (e : List String → List String) (he : IsSetEnum e) (s : AgentState)
    (h : errTruthy s.error = false) :
    (∀ p : String,
      p ∈ (purchase_pattern_analysis_agent e
            (fun ind cid => Except.ok (queryPeers db ind cid))
            s).missing_opportunities_products ↔
        ((∃ r : Row, r ∈ db ∧ r.industry = s.customer_profile.industry ∧
            r.customerId ≠ s.customer_id ∧ r.product = p) ∧
          p ∉ (purchase_pattern_analysis_agent e
            (fun ind cid => Except.ok (queryPeers db ind cid))
            s).frequent_products)) ∧
    (s.customer_purchase_history = [] →
      ∀ p : String,
        p ∈ (purchase_pattern_analysis_agent e
              (fun ind cid => Except.ok (queryPeers db ind cid))
              s).missing_opportunities_products ↔
          ∃ r : Row, r ∈ db ∧ r.industry = s.customer_profile.industry ∧
            r.customerId ≠ s.customer_id ∧ r.product = p) := by
  have hfields := pattern_ok_fields e
    (fun ind cid => Except.ok (queryPeers db ind cid)) s
    (queryPeers db s.customer_profile.industry s.customer_id) h rfl
  constructor
  · intro p
    rw [hfields.2.1, hfields.1, isSetEnum_mem he, List.mem_filter]
    simp only [not_contains_iff, mem_queryPeers]
  · intro hhist p
    rw [hfields.2.1, isSetEnum_mem he, List.mem_filter]
    simp only [not_contains_iff, mem_queryPeers, hhist, List.map_nil]
    simp [isSetEnum_mem he]

/-- Witness for C4 on a concrete store: the peer product Generators is a
missing opportunity for C1. -/
theorem claim4_missing_opportunities_witness :
    "Generators" ∈ (purchase_pattern_analysis_agent distinctFirstSeen
      (fun ind cid =>
        Except.ok (queryPeers [rowDrills, rowBits, rowPeerGen] ind cid))
      stateLoaded).missing_opportunities_products :=
  ((claim4_missing_opportunities [rowDrills, rowBits, rowPeerGen]
      distinctFirstSeen isSetEnum_distinctFirstSeen stateLoaded
      (by decide)).1 "Generators").mpr
    ⟨⟨rowPeerGen, by decide, by decide, by decide, by decide⟩, by decide⟩

/-- Claim C5: with the store reachable, the context stage reports the
not-found error exactly when the customer query returns zero rows; on a
nonempty result it clears the error, takes the profile from the first
row and projects the full row set into the purchase history. -/
theorem claim5_context_loader (db : List Row) (s : AgentState) :
    ((customer_context_agent
        (fun cid => Except.ok (queryCustomer db cid)) s).error =
      some ("Customer ID " ++ s.customer_id ++ " not found.") ↔
        queryCustomer db s.customer_id = []) ∧
    ∀ (r : Row) (rest : List Row),
      queryCustomer db s.customer_id = r :: rest →
        (customer_context_agent
            (fun cid => Except.ok (queryCustomer db cid)) s).error = none ∧
        (customer_context_agent
            (fun cid => Except.ok (queryCustomer db cid)) s).customer_profile =
          profileOfRow r ∧
        (customer_context_agent
            (fun cid => Except.ok (queryCustomer db cid)) s).customer_purchase_history =
          (r :: rest).map purchaseOfRow := by
  cases hq : queryCustomer db s.customer_id with
  | nil =>
    have hfetch : (fun cid => Except.ok (queryCustomer db cid)) s.customer_id =
        (Except.ok [] : Except String (List Row)) := by
      simp only [hq]
    constructor
    · rw [(ccagent_empty_fields (fun cid => Except.ok (queryCustomer db cid))
        s hfetch).1]
      simp
    · intro r rest hr
      exact absurd hr (by simp)
  | cons r0 rest0 =>
    have hfetch : (fun cid => Except.ok (queryCustomer db cid)) s.customer_id =
        (Except.ok (r0 :: rest0) : Except String (List Row)) := by
      simp only [hq]
    have hfields := ccagent_ok_fields
      (fun cid => Except.ok (queryCustomer db cid)) s r0 rest0 hfetch
    constructor
    · rw [hfields.2.2.1]
      simp
    · intro r rest hr
      injection hr with h1 h2
      subst h1
      subst h2
      exact ⟨hfields.2.2.1, hfields.1, hfields.2.1⟩

/-- Witness for C5: the not-found error on an empty store, and the
loaded profile on a one-row store. -/
theorem claim5_context_loader_witness :
    (customer_context_agent
        (fun cid => Except.ok (queryCustomer [] cid))
        (initState "C9")).error =
      some ("Customer ID " ++ (initState "C9").customer_id ++ " not found.") ∧
    (customer_context_agent
        (fun cid => Except.ok (queryCustomer [rowDrills] cid))
        (initState "C1")).error = none :=
  ⟨(claim5_context_loader [] (initState "C9")).1.mpr (by decide),
   ((claim5_context_loader [rowDrills] (initState "C1")).2 rowDrills []
      (by decide)).1⟩

/-- Claim C6: when the affinity request fails, the stage returns the
state with an empty suggestion list and an unchanged (still falsy)
error, so the remaining stages run normally. -/
theorem claim6_affinity_soft_fail (s : AgentState) (msg : String)
    (h : errTruthy s.error = false) :
    product_affinity_agent (Except.error msg) s =
      { s with related_product_suggestions := [] } ∧
    errTruthy (product_affinity_agent (Except.error msg) s).error = false := by
  have h1 : product_affinity_agent (Except.error msg) s =
      { s with related_product_suggestions := [] } := by
    by_cases hf : s.frequent_products.isEmpty = true <;>
      simp [product_affinity_agent, h, hf]
  exact ⟨h1, by rw [h1]; exact h⟩

/-- Witness for C6 at a concrete loaded state. -/
theorem claim6_affinity_soft_fail_witness :
    product_affinity_agent (Except.error "service down") stateLoaded =
      { stateLoaded with related_product_suggestions := [] } :=
  (claim6_affinity_soft_fail stateLoaded "service down" (by decide)).1

/-- Claim C7: a failed scoring request sets the scoring-stage error,
leaves the scored list unpopulated, and the conditional edge routes to
END, so the final pipeline state carries that error with no report and
no recommendations. -/
theorem claim7_scoring_failure_fatal
    (fetchCustomer : String → Except String (List Row))
    (e : List String → List String)
    (fP : String → String → Except String (List String))
    (affSvc : Except String (List Suggestion))
    (repSvc : Except String String)
    (cid msg : String) (r : Row) (rest : List Row) (peers : List String)
    (hc : fetchCustomer cid = Except.ok (r :: rest))
    (hp : fP (profileOfRow r).industry cid = Except.ok peers) :
    run_pipeline fetchCustomer e fP affSvc (Except.error msg) repSvc cid =
      opportunity_scoring_agent (Except.error msg)
        (product_affinity_agent affSvc
          (purchase_pattern_analysis_agent e fP
            (customer_context_agent fetchCustomer (initState cid)))) ∧
    (run_pipeline fetchCustomer e fP affSvc (Except.error msg) repSvc
        cid).error =
      some ("Error in Opportunity Scoring Agent: " ++ msg) ∧
    (run_pipeline fetchCustomer e fP affSvc (Except.error msg) repSvc
        cid).scored_opportunities = [] ∧
    (run_pipeline fetchCustomer e fP affSvc (Except.error msg) repSvc
        cid).research_report = "" ∧
    (run_pipeline fetchCustomer e fP affSvc (Except.error msg) repSvc
        cid).recommendations_structured = [] := by
  have hc1 : fetchCustomer (initState cid).customer_id =
      Except.ok (r :: rest) := hc
  have h1 := ccagent_ok_fields fetchCustomer (initState cid) r rest hc1
  have herr1 : errTruthy
      (customer_context_agent fetchCustomer (initState cid)).error = false := by
    rw [h1.2.2.1]
    rfl
  have hp1 : fP (customer_context_agent fetchCustomer
        (initState cid)).customer_profile.industry
      (customer_context_agent fetchCustomer (initState cid)).customer_id =
      Except.ok peers := by
    rw [h1.1, h1.2.2.2.1]
    exact hp
  have h2 := pattern_ok_fields e fP
    (customer_context_agent fetchCustomer (initState cid)) peers herr1 hp1
  have herr2 : errTruthy (purchase_pattern_analysis_agent e fP
      (customer_context_agent fetchCustomer (initState cid))).error = false := by
    rw [h2.2.2.1]
    exact herr1
  have h3 := affinity_preserves affSvc (purchase_pattern_analysis_agent e fP
    (customer_context_agent fetchCustomer (initState cid)))
  have herr3 : errTruthy (product_affinity_agent affSvc
      (purchase_pattern_analysis_agent e fP
        (customer_context_agent fetchCustomer (initState cid)))).error =
      false := by
    rw [h3.1]
    exact herr2
  have h4 := scoring_err_fields (product_affinity_agent affSvc
    (purchase_pattern_analysis_agent e fP
      (customer_context_agent fetchCustomer (initState cid)))) msg herr3
  have hlen : ("Error in Opportunity Scoring Agent: " : String).length ≠ 0 := by
    decide
  have herr4 : errTruthy (opportunity_scoring_agent (Except.error msg)
      (product_affinity_agent affSvc
        (purchase_pattern_analysis_agent e fP
          (customer_context_agent fetchCustomer (initState cid))))).error =
      true := by
    rw [h4.1]
    exact errTruthy_some_append _ msg hlen
  have hroute : scoringRouteEnds (opportunity_scoring_agent (Except.error msg)
      (product_affinity_agent affSvc
        (purchase_pattern_analysis_agent e fP
          (customer_context_agent fetchCustomer (initState cid))))) = true := by
    unfold scoringRouteEnds
    rw [herr4, Bool.true_and, h4.1, Option.getD_some]
    exact scoring_msg_contains msg
  have hrun : run_pipeline fetchCustomer e fP affSvc (Except.error msg)
      repSvc cid =
      opportunity_scoring_agent (Except.error msg)
        (product_affinity_agent affSvc
          (purchase_pattern_analysis_agent e fP
            (customer_context_agent fetchCustomer (initState cid)))) := by
    simp only [run_pipeline]
    rw [herr1, hroute]
    simp
  refine ⟨hrun, ?_, ?_, ?_, ?_⟩
  · rw [hrun]
    exact h4.1
  · rw [hrun, h4.2.1, h3.2.1, h2.2.2.2.1, h1.2.2.2.2.1]
    rfl
  · rw [hrun, h4.2.2.1, h3.2.2.1, h2.2.2.2.2.1, h1.2.2.2.2.2.1]
    rfl
  · rw [hrun, h4.2.2.2, h3.2.2.2.1, h2.2.2.2.2.2, h1.2.2.2.2.2.2]
    rfl

/-- Witness for C7 on a concrete store and a timed-out scoring call. -/
theorem claim7_scoring_failure_fatal_witness :
    (run_pipeline (fun _ => Except.ok [rowDrills, rowBits]) distinctFirstSeen
        (fun _ _ => Except.ok ["Generators"]) (Except.ok [])
        (Except.error "timeout") (Except.ok "unused") "C1").error =
      some ("Error in Opportunity Scoring Agent: " ++ "timeout") :=
  (claim7_scoring_failure_fatal (fun _ => Except.ok [rowDrills, rowBits])
      distinctFirstSeen (fun _ _ => Except.ok ["Generators"]) (Except.ok [])
      (Except.ok "unused") "C1" "timeout" rowDrills [rowBits] ["Generators"]
      rfl rfl).2.1

/-- Claim C8: on a parsed service response, neither the affinity output
nor the scoring output contains a product already in
`frequent_products` — both stages filter such entries out. -/
theorem claim8_defensive_filtering (s : AgentState)
    (affRaw : List Suggestion) (scoreRaw : List Opp)
    (h : errTruthy s.error = false) :
    (∀ x : Suggestion,
      x ∈ (product_affinity_agent (Except.ok affRaw)
            s).related_product_suggestions →
        x.product ∉ s.frequent_products) ∧
    (∀ o : Opp,
      o ∈ (opportunity_scoring_agent (Except.ok scoreRaw)
            s).scored_opportunities →
        o.product ∉ s.frequent_products) := by
  constructor
  · intro x hx
    cases hf : s.frequent_products.isEmpty with
    | true =>
      rw [List.isEmpty_iff] at hf
      rw [hf]
      simp
    | false =>
      rw [affinity_ok_fields affRaw s h hf] at hx
      rw [List.mem_filter] at hx
      exact (not_contains_iff _ _).mp hx.2
  · intro o ho
    rw [scoring_ok_fields scoreRaw s h, mem_sortByScoreDesc,
      List.mem_filter] at ho
    exact (not_contains_iff _ _).mp ho.2

/-- Witness for C8: an entry for an already-owned product is absent from
the scoring output. -/
theorem claim8_defensive_filtering_witness :
    oppOwnedDrills ∉ (opportunity_scoring_agent
        (Except.ok [oppOwnedDrills]) stateLoaded).scored_opportunities :=
  fun hmem =>
    ((claim8_defensive_filtering stateLoaded [] [oppOwnedDrills]
        (by decide)).2 oppOwnedDrills hmem) (by decide)

/-- Claim C9 is the declared schema, but the code does not enforce it:
the parser validates nothing, so a parsed scoring entry with score 42
flows unchanged into the scored-opportunity list. -/
theorem claim9_score_not_validated :
    (opportunity_scoring_agent (Except.ok [oppOutOfRange])
        (initState "C9")).scored_opportunities = [oppOutOfRange] ∧
    ¬ (1 ≤ oppOutOfRange.score ∧ oppOutOfRange.score ≤ 10) := by
  constructor <;> decide

/-- The pair generator skips an element equal to the source product. -/
theorem pairFM_cons_eq (a b : String) (bs : List String) (hab : a = b) :
    (b :: bs).filterMap (fun x => if a = x then none else some (a, x)) =
      bs.filterMap (fun x => if a = x then none else some (a, x)) := by
  rw [List.filterMap_cons, if_pos hab]

/-- The pair generator emits a pair for an element differing from the
source product. -/
theorem pairFM_cons_ne (a b : String) (bs : List String) (hab : a ≠ b) :
    (b :: bs).filterMap (fun x => if a = x then none else some (a, x)) =
      (a, b) :: bs.filterMap (fun x => if a = x then none else some (a, x)) := by
  rw [List.filterMap_cons, if_neg hab]

/-- Counting one ordered pair among the increments generated from a
single source product. -/
theorem count_inner (a p1 p2 : String) (ps : List String) :
    (ps.filterMap (fun x => if a = x then none else some (a, x))).count
        (p1, p2) =
      if a = p1 ∧ p2 ≠ a then ps.count p2 else 0 := by
  induction ps with
  | nil => simp
  | cons b bs ih =>
    by_cases hab : a = b
    · rw [pairFM_cons_eq a b bs hab, ih]
      by_cases hc : a = p1 ∧ p2 ≠ a
      · rw [if_pos hc, if_pos hc, List.count_cons]
        have hbp : (b == p2) = false :=
          beq_eq_false_iff_ne.mpr (Ne.symm (hab ▸ hc.2))
        rw [hbp]
        simp
      · rw [if_neg hc, if_neg hc]
    · rw [pairFM_cons_ne a b bs hab, List.count_cons, ih, List.count_cons]
      by_cases h1 : a = p1
      · by_cases h2 : b = p2
        · have h3 : p2 ≠ a := fun hpa => hab (hpa ▸ h2).symm
          have hc : a = p1 ∧ p2 ≠ a := ⟨h1, h3⟩
          have hpair : (((a, b) : String × String) == (p1, p2)) = true := by
            simp [h1, h2]
          have hbp : (b == p2) = true := by simp [h2]
          rw [if_pos hc, if_pos hc, hpair, hbp]
        · have hpair : (((a, b) : String × String) == (p1, p2)) = false :=
            beq_eq_false_iff_ne.mpr (fun hp => h2 (congrArg Prod.snd hp))
          have hbp : (b == p2) = false := beq_eq_false_iff_ne.mpr h2
          rw [hpair, hbp]
          by_cases h3 : p2 = a
          · have hc : ¬(a = p1 ∧ p2 ≠ a) := fun hcc => hcc.2 h3
            rw [if_neg hc, if_neg hc]
            simp
          · have hc : a = p1 ∧ p2 ≠ a := ⟨h1, h3⟩
            rw [if_pos hc, if_pos hc]
      · have hpair : (((a, b) : String × String) == (p1, p2)) = false :=
          beq_eq_false_iff_ne.mpr (fun hp => h1 (congrArg Prod.fst hp))
        have hc : ¬(a = p1 ∧ p2 ≠ a) := fun hcc => h1 hcc.1
        rw [hpair, if_neg hc, if_neg hc]
        simp

/-- Counting one ordered pair among the increments generated from a
list of source products. -/
theorem count_mid (ps : List String) (p1 p2 : String) (qs : List String) :
    ((qs.flatMap (fun a =>
        ps.filterMap (fun x => if a = x then none else some (a, x)))).count
      (p1, p2)) =
      qs.count p1 * (if p2 ≠ p1 then ps.count p2 else 0) := by
  induction qs with
  | nil => simp
  | cons a as ih =>
    rw [List.flatMap_cons, List.count_append, ih, count_inner a p1 p2 ps,
      List.count_cons]
    by_cases h1 : a = p1
    · by_cases h2 : p2 = p1
      · have hc : ¬(a = p1 ∧ p2 ≠ a) := fun hcc => hcc.2 (h2.trans h1.symm)
        have hne : ¬(p2 ≠ p1) := fun hn => hn h2
        rw [if_neg hc, if_neg hne]
        simp
      · have hc : a = p1 ∧ p2 ≠ a := ⟨h1, fun hpa => h2 (hpa.trans h1)⟩
        have hbt : (a == p1) = true := by simp [h1]
        rw [if_pos hc, if_pos h2, hbt, if_pos rfl]
        ring
    · have hc : ¬(a = p1 ∧ p2 ≠ a) := fun hcc => h1 hcc.1
      have hbf : (a == p1) = false := beq_eq_false_iff_ne.mpr h1
      rw [if_neg hc, hbf]
      simp

/-- The co-occurrence count as a sum over customers: each customer
contributes the product of the multiplicities of the two products in
its distinct-product list (zero on the diagonal). -/
theorem coCount_eq_sum (db : List (String × String)) (q1 q2 : String) :
    coCount db q1 q2 =
      ((customersOf db).map (fun c =>
        (productsOf db c).count q1 *
          (if q2 ≠ q1 then (productsOf db c).count q2 else 0))).sum := by
  unfold coCount coIncrements
  generalize customersOf db = cs
  induction cs with
  | nil => simp
  | cons c cs ih =>
    rw [List.flatMap_cons, List.count_append, ih, List.map_cons,
      List.sum_cons, count_mid (productsOf db c) q1 q2 (productsOf db c)]

/-- Claim C10 (spec-modelled): the deterministic co-occurrence count is
symmetric, and no product is ever counted against itself. -/
theorem claim10_cooccurrence_symmetric (db : List (String × String))
    (p1 p2 : String) :
    coCount db p1 p2 = coCount db p2 p1 ∧ coCount db p1 p1 = 0 := by
  constructor
  · rw [coCount_eq_sum db p1 p2, coCount_eq_sum db p2 p1]
    generalize customersOf db = cs
    induction cs with
    | nil => rfl
    | cons c cs ih =>
      rw [List.map_cons, List.map_cons, List.sum_cons, List.sum_cons, ih]
      congr 1
      by_cases h : p1 = p2
      · subst h
        simp
      · have h2 : p2 ≠ p1 := Ne.symm h
        rw [if_pos h2, if_pos h]
        exact Nat.mul_comm _ _
  · rw [coCount_eq_sum db p1 p1]
    simp

end CrossSell
